import Mathlib

/-!
Verification of the RAG chatbot's agentic tool-orchestration loop and tool layer.

The definitions below are shallow embeddings of the Python sources:
  * `backend/ai_generator.py` — `AIGenerator.generate_response`,
    `AIGenerator._handle_tool_execution`, `AIGenerator._execute_tools`;
  * `backend/search_tools.py` — `CourseSearchTool`, `CourseOutlineTool`,
    `ToolManager`.

The LLM gateway is modelled as a stream of mock responses indexed by call
order (the response to the i-th `client.messages.create` call), and tool
execution as a function that may signal a raised exception with `none`.
Machine-level details irrelevant to the verified properties (HTTP, the
Anthropic SDK object layout) are abstracted; response objects keep exactly
the fields the orchestrator reads (`stop_reason`, `content`, and the
`type`/`name`/`input`/`id`/`text` attributes of content blocks).
-/

namespace RagChatbot

/-- Keyword arguments passed to a tool (`**content_block.input` in Python);
the orchestrator never inspects them, so a name/value mapping suffices. -/
abbrev ToolArgs := List (String × String)

/-- A content block of an Anthropic message.  `text` blocks carry a `.text`
attribute; `tool_use` blocks carry `.name`, `.input` and `.id` (and no
`.text`, so reading `.text` on them raises `AttributeError`). -/
inductive ContentBlock where
  | text (s : String)
  | tool_use (name : String) (input : ToolArgs) (id : String)
deriving DecidableEq, Repr

/-- A mock gateway response: exactly the two attributes the orchestrator
reads (`response.stop_reason` and `response.content`). -/
structure MockResponse where
  stop_reason : String
  content : List ContentBlock
deriving DecidableEq, Repr

/-- One tool-result record built by `AIGenerator._execute_tools`
(`{"type": "tool_result", "tool_use_id": ..., "content": ...}`). -/
structure ToolResult where
  tool_use_id : String
  content : String
deriving DecidableEq, Repr

/-- A turn of the conversation the orchestrator accumulates in `messages`:
the initial user query, an assistant tool-use turn (`response.content`),
or a user turn bundling a round's tool results. -/
inductive ChatMessage where
  | userText (text : String)
  | assistantBlocks (content : List ContentBlock)
  | userToolResults (results : List ToolResult)
deriving DecidableEq, Repr

/-- Outcome of one orchestration run: `ok s` models returning the string
`s`; `exn` models an uncaught `IndexError`/`AttributeError` escaping to
the caller. -/
inductive RunResult where
  | ok (text : String)
  | exn
deriving DecidableEq, Repr

/-- Tool execution as seen from the orchestrator
(`tool_manager.execute_tool(name, **input)`): `none` models the call
raising an exception, `some s` a normal string result. -/
abbrev ExecFn := String → ToolArgs → Option String

/-- `response.content[0].text`: `some` when the content list is non-empty
and its first block has a `.text` attribute, `none` when the access would
raise `IndexError` (empty list) or `AttributeError` (tool_use block). -/
def firstText : List ContentBlock → Option String
  | ContentBlock.text s :: _ => some s
  | _ => none

/-- The guarded `return response.content[0].text` pattern
(ai_generator.py lines 106-110 and 168-172): a malformed response falls
back to the fixed sentinel string. -/
def finishText (r : MockResponse) : RunResult :=
  match firstText r.content with
  | some t => RunResult.ok t
  | none => RunResult.ok "Unable to process response"

/-- Loop body of `AIGenerator._execute_tools` (lines 185-197): execute the
tool of every `tool_use` block in order, collecting results; any raised
exception aborts the whole batch (`none`). -/
def executeToolsGo (tm : ExecFn) : List ContentBlock → Option (List ToolResult)
  | [] => some []
  | ContentBlock.text _ :: rest => executeToolsGo tm rest
  | ContentBlock.tool_use n args id :: rest =>
    match tm n args with
    | none => none
    | some r =>
      match executeToolsGo tm rest with
      | none => none
      | some rs => some (⟨id, r⟩ :: rs)

/-- `AIGenerator._execute_tools` (lines 174-200): returns the batch of
tool results, or `None` when the batch raised or produced no results
(`return tool_results if tool_results else None`). -/
def execute_tools (content : List ContentBlock) (tm : ExecFn) : Option (List ToolResult) :=
  match executeToolsGo tm content with
  | none => none
  | some [] => none
  | some rs => some rs

/-- Output of the tool-execution loop: the run result, the log of gateway
calls made inside the loop (one `Bool` per call, `true` iff tool schemas
were attached), and the final `messages` list. -/
structure LoopOut where
  result : RunResult
  calls : List Bool
  messages : List ChatMessage
deriving Repr

/-- The `while` loop of `AIGenerator._handle_tool_execution`
(ai_generator.py lines 129-172).  `fuel` is `max_rounds - round_count`, so
the loop guard `round_count < max_rounds` is `fuel ≠ 0`, and the
post-increment test `round_count >= max_rounds` that triggers the final
tools-withdrawn call (lines 143-150) is `fuel = 1`.  `ci` is the index of
the next gateway call in the mock stream.  Note that the final call's
`final_response.content[0].text` (line 150) is *not* wrapped in
`try/except`, so a malformed response there is `RunResult.exn`. -/
def toolLoop (client : Nat → MockResponse) (tm : ExecFn) (hasTools : Bool) :
    Nat → Nat → List ChatMessage → MockResponse → LoopOut
  | 0, _, msgs, cur => ⟨finishText cur, [], msgs⟩
  | fuel + 1, ci, msgs, cur =>
    if cur.stop_reason == "tool_use" then
      let msgs1 := msgs ++ [ChatMessage.assistantBlocks cur.content]
      match execute_tools cur.content tm with
      | none => ⟨finishText cur, [], msgs1⟩
      | some results =>
        let msgs2 := msgs1 ++ [ChatMessage.userToolResults results]
        if fuel = 0 then
          let finalr := client ci
          ⟨(match firstText finalr.content with
            | some t => RunResult.ok t
            | none => RunResult.exn), [false], msgs2⟩
        else
          let nxt := client ci
          let rest := toolLoop client tm hasTools fuel (ci + 1) msgs2 nxt
          ⟨rest.result, hasTools :: rest.calls, rest.messages⟩
    else ⟨finishText cur, [], msgs⟩

/-- Output of one full orchestration run: the result and the complete log
of gateway calls (one `Bool` per call, `true` iff tool schemas attached). -/
structure RunOut where
  result : RunResult
  calls : List Bool
deriving Repr

/-- `AIGenerator.generate_response` (ai_generator.py lines 60-110).
`hasTools` is the truthiness of the `tools` argument (line 94: tools are
attached to the first call, and propagated to continuation calls via
`base_params.get("tools")` at line 157); `tool_manager` is `None` or an
execution function.  The first gateway call is `client 0`. -/
def generate_response (client : Nat → MockResponse) (hasTools : Bool)
    (tool_manager : Option ExecFn) (max_rounds : Nat) (query : String) : RunOut :=
  let response := client 0
  match tool_manager with
  | some tm =>
    if response.stop_reason == "tool_use" then
      let lo := toolLoop client tm hasTools max_rounds 1 [ChatMessage.userText query] response
      ⟨lo.result, hasTools :: lo.calls⟩
    else ⟨finishText response, [hasTools]⟩
  | none => ⟨finishText response, [hasTools]⟩

/-- Python truthiness of an optional string (`if course_name:`,
`if results.error:`, `if course.get("instructor"):`): `None` and the
empty string are falsy. -/
def optStrTruthy : Option String → Bool
  | none => false
  | some s => !(s == "")

/-- Python truthiness of an optional integer (`if lesson_number:`):
`None` and `0` are falsy. -/
def optIntTruthy : Option Int → Bool
  | none => false
  | some n => !(n == 0)

/-- Metadata dict of one matched chunk, as read by
`CourseSearchTool._format_results`: `meta.get("course_title", "unknown")`
and `meta.get("lesson_number")`. -/
structure ChunkMeta where
  course_title : Option String
  lesson_number : Option Int
deriving DecidableEq, Repr

/-- Modelled from the spec: `vector_store.py` (class `SearchResults`) is
not among the sources; fields follow the spec's data model
(`documents`/`metadata`/`distances` parallel sequences plus an optional
`error`).  The numeric distance values are irrelevant to every modelled
operation, so they are carried as integers to stay executable. -/
structure SearchResults where
  documents : List String
  metadata : List ChunkMeta
  distances : List Int
  error : Option String
deriving DecidableEq, Repr

/-- Modelled from the spec: `SearchResults.is_empty()` holds iff
`documents` is empty. -/
def SearchResults.is_empty (r : SearchResults) : Bool :=
  r.documents.isEmpty

/-- The two `VectorStore` operations `CourseSearchTool` consumes
(`store.search` and `store.get_lesson_link`); the store itself is an
external collaborator, so it is modelled as an opaque pair of functions. -/
structure VectorStore where
  search : String → Option String → Option Int → SearchResults
  get_lesson_link : String → Int → Option String

/-- `CourseSearchTool`'s mutable state: the provenance list
(`self.last_sources`). -/
structure CourseSearchTool where
  last_sources : List String
deriving DecidableEq, Repr

/-- Context header built for one chunk in
`CourseSearchTool._format_results` (search_tools.py lines 101-105):
`[<course title>[ - Lesson <n>]]`. -/
def headerFor (meta : ChunkMeta) : String :=
  let course_title := meta.course_title.getD "unknown"
  "[" ++ course_title ++
    (match meta.lesson_number with
      | some n => " - Lesson " ++ toString n
      | none => "") ++ "]"

/-- Provenance entry built for one chunk in
`CourseSearchTool._format_results` (lines 107-116): the display label,
with a lesson deep-link appended after a `|` separator when the store has
one (`if lesson_link:` — empty links are falsy and dropped). -/
def sourceFor (store : VectorStore) (meta : ChunkMeta) : String :=
  let course_title := meta.course_title.getD "unknown"
  match meta.lesson_number with
  | none => course_title
  | some n =>
    let base := course_title ++ " - Lesson " ++ toString n
    match store.get_lesson_link course_title n with
    | some link => if link == "" then base else base ++ "|" ++ link
    | none => base

/-- `CourseSearchTool._format_results` (lines 92-123): renders each
`(document, metadata)` pair as header plus document joined by blank
lines, and returns the per-chunk provenance list that the method stores
into `self.last_sources`. -/
def format_results (store : VectorStore) (results : SearchResults) :
    String × List String :=
  let pairs := results.documents.zip results.metadata
  (String.intercalate "\n\n" (pairs.map (fun p => headerFor p.2 ++ "\n" ++ p.1)),
   pairs.map (fun p => sourceFor store p.2))

/-- The `filter_info` string built in the empty-results branch of
`CourseSearchTool.execute` (lines 81-87): mentions the course filter when
truthy and the lesson filter when truthy. -/
def filterInfo (course_name : Option String) (lesson_number : Option Int) : String :=
  (match course_name with
    | some c => if c == "" then "" else " in course '" ++ c ++ "'"
    | none => "") ++
  (match lesson_number with
    | some n => if n == 0 then "" else " in lesson " ++ toString n
    | none => "")

/-- `CourseSearchTool.execute` (lines 53-90): search the store; a truthy
store error is returned verbatim; an empty result set yields the
templated negative message; otherwise the formatted results are returned
and `last_sources` is overwritten.  The returned pair is (result string,
post-state of the tool). -/
def cst_execute (store : VectorStore) (tool : CourseSearchTool) (query : String)
    (course_name : Option String) (lesson_number : Option Int) :
    String × CourseSearchTool :=
  let results := store.search query course_name lesson_number
  if optStrTruthy results.error then
    (results.error.getD "", tool)
  else if results.is_empty then
    ("No relevant content found" ++ filterInfo course_name lesson_number ++ ".", tool)
  else
    let fr := format_results store results
    (fr.1, { last_sources := fr.2 })

/-- One lesson dict inside a course's metadata, as read by
`CourseOutlineTool._format_course_outline`: `lesson.get("lesson_number")`
and `lesson.get("lesson_title")`. -/
structure LessonMeta where
  lesson_number : Option Int
  lesson_title : Option String
deriving DecidableEq, Repr

/-- One course's metadata dict, as read by `CourseOutlineTool`:
`course["title"]` (required), `course.get("instructor")`,
`course.get("course_link")`, `course.get("lessons", [])`. -/
structure CourseMeta where
  title : String
  instructor : Option String
  course_link : Option String
  lessons : List LessonMeta
deriving DecidableEq, Repr

/-- The sort key of `sorted(lessons, key=lambda x: x.get("lesson_number", 0))`
(search_tools.py line 218): the lesson number, with a missing number
sorting as 0. -/
def lessonKey (l : LessonMeta) : Int :=
  l.lesson_number.getD 0

/-- Stable insertion of a lesson into an already-sorted list: the new
element goes before the first strictly/equally later element, after any
earlier-or-equal ones that preceded it in the original list. -/
def insertLesson (a : LessonMeta) : List LessonMeta → List LessonMeta
  | [] => [a]
  | x :: xs =>
    if lessonKey a ≤ lessonKey x then a :: x :: xs else x :: insertLesson a xs

/-- `sorted(lessons, key=lambda x: x.get("lesson_number", 0))`
(line 218): Python's `sorted` is a stable ascending sort by the key;
it is modelled by stable insertion sort, which computes the same
(unique stable) result. -/
def sortLessons : List LessonMeta → List LessonMeta
  | [] => []
  | a :: rest => insertLesson a (sortLessons rest)

/-- The rendering condition of one lesson line (line 221):
`lesson_num is not None and lesson_title` — the title must be present
and truthy (non-empty). -/
def includedLesson (l : LessonMeta) : Bool :=
  (match l.lesson_number with
    | some _ => true
    | none => false) &&
  (match l.lesson_title with
    | some t => !(t == "")
    | none => false)

/-- One rendered lesson line (line 222): `<number>. <title>` plus a
newline.  Only applied to lessons satisfying `includedLesson`. -/
def lessonLine (l : LessonMeta) : String :=
  match l.lesson_number, l.lesson_title with
  | some n, some t => toString n ++ ". " ++ t ++ "\n"
  | _, _ => ""

/-- `CourseOutlineTool._format_course_outline` (lines 199-226): title,
optional instructor, optional sanitized course link (protocol prefixes
stripped, wrapped in backticks), then the lesson section — either the
rendered lines of the sorted lesson list or the explicit
"No lessons found" line. -/
def format_course_outline (course : CourseMeta) : String :=
  let outline := "**" ++ course.title ++ "**\n\n"
  let outline := outline ++
    (match course.instructor with
      | some i => if i == "" then "" else "**Instructor:** " ++ i ++ "\n"
      | none => "")
  let outline := outline ++
    (match course.course_link with
      | some url =>
        if url == "" then ""
        else
          let clean_url := (url.replace "https://" "").replace "http://" ""
          "**Course URL:** `" ++ clean_url ++ "`\n"
      | none => "")
  let outline := outline ++ "\n**Course Lessons:**\n"
  if course.lessons.isEmpty then
    outline ++ "No lessons found for this course.\n"
  else
    (sortLessons course.lessons).foldl
      (fun acc l =>
        match l.lesson_number, l.lesson_title with
        | some n, some t =>
          if t == "" then acc else acc ++ toString n ++ ". " ++ t ++ "\n"
        | _, _ => acc)
      outline

/-- The part of the outline before the lesson lines (the first four
`outline` accumulation steps of `_format_course_outline`), used to state
properties of the lesson section. -/
def courseHeader (course : CourseMeta) : String :=
  "**" ++ course.title ++ "**\n\n" ++
  (match course.instructor with
    | some i => if i == "" then "" else "**Instructor:** " ++ i ++ "\n"
    | none => "") ++
  (match course.course_link with
    | some url =>
      if url == "" then ""
      else
        let clean_url := (url.replace "https://" "").replace "http://" ""
        "**Course URL:** `" ++ clean_url ++ "`\n"
    | none => "") ++
  "\n**Course Lessons:**\n"

/-- Concatenation of a list of strings (used to state what the lesson
fold produces). -/
def concatAll : List String → String
  | [] => ""
  | s :: rest => s ++ concatAll rest

/-- Does `needle` occur as a prefix of `hay`?  Executable model of the
prefix part of Python's `in` on strings. -/
def charPre : List Char → List Char → Bool
  | [], _ => true
  | _ :: _, [] => false
  | a :: as, b :: bs => a == b && charPre as bs

/-- Does `needle` occur as a contiguous substring of `hay`?  Executable
model of Python's `in` on strings (over the character lists). -/
def charSub (needle : List Char) : List Char → Bool
  | [] => charPre needle []
  | c :: rest => charPre needle (c :: rest) || charSub needle rest

/-- Python's `sub in s` on strings. -/
def strIn (sub s : String) : Bool :=
  charSub sub.data s.data

/-- Python's `str.lower()`, modelled characterwise (ASCII case folding;
the stored course titles and queries are ASCII text). -/
def strLower (s : String) : String :=
  ⟨s.data.map Char.toLower⟩

/-- The exact-match predicate of the first pass of
`CourseOutlineTool._find_best_course_match` (lines 184-187):
case-insensitive title equality. -/
def exactPred (search_title : String) (c : CourseMeta) : Bool :=
  strLower c.title == strLower search_title

/-- The partial-match predicate of the second pass (lines 189-195):
case-insensitive substring containment in either direction. -/
def partialPred (search_title : String) (c : CourseMeta) : Bool :=
  strIn (strLower search_title) (strLower c.title) ||
  strIn (strLower c.title) (strLower search_title)

/-- `CourseOutlineTool._find_best_course_match` (lines 178-197): first
course with a case-insensitive exact title match; failing that, first
course with a case-insensitive bidirectional substring match; else none. -/
def find_best_course_match (search_title : String) (courses : List CourseMeta) :
    Option CourseMeta :=
  match courses.find? (exactPred search_title) with
  | some c => some c
  | none => courses.find? (partialPred search_title)

/-- `CourseOutlineTool.execute` (lines 149-176), with the course metadata
list passed in place of the external store call
`store.get_all_courses_metadata()`.  The `except` clause is unreachable
in this pure model (nothing in the body raises). -/
def outline_execute (all_courses : List CourseMeta) (course_title : String) : String :=
  if all_courses.isEmpty then
    "No courses found in the database."
  else
    match find_best_course_match course_title all_courses with
    | none =>
      "No course found matching '" ++ course_title ++ "'. Available courses: " ++
        String.intercalate ", " (all_courses.map CourseMeta.title)
    | some best => format_course_outline best

/-- A tool definition dict as read by `ToolManager.register_tool`:
only `tool_def.get("name")` is consulted. -/
structure ToolDef where
  name : Option String
deriving DecidableEq, Repr

/-- A registered tool as seen by `ToolManager`: its declared definition,
its `execute` method, and (for the duck-typed provenance scan) an
optional `last_sources` attribute (`none` models the attribute being
absent). -/
structure PTool where
  tool_def : ToolDef
  run : ToolArgs → String
  last_sources : Option (List String)

/-- `ToolManager`: tools keyed by declared name (`self.tools` dict,
insertion ordered). -/
structure ToolManager where
  tools : List (String × PTool)

/-- Python dict assignment `d[k] = v`: replaces in place when the key
exists, appends otherwise. -/
def dictInsert (d : List (String × PTool)) (k : String) (v : PTool) :
    List (String × PTool) :=
  match d with
  | [] => [(k, v)]
  | (k0, v0) :: rest =>
    if k0 == k then (k0, v) :: rest else (k0, v0) :: dictInsert rest k v

/-- Python dict lookup `d[k]` / `k in d`. -/
def lookupTool (mgr : ToolManager) (tool_name : String) : Option PTool :=
  mgr.tools.lookup tool_name

/-- `ToolManager.register_tool` (search_tools.py lines 235-241): reject a
tool whose definition lacks a truthy name (`if not tool_name: raise
ValueError(...)`), otherwise key the tool by that name. -/
def register_tool (mgr : ToolManager) (tool : PTool) : Except String ToolManager :=
  match tool.tool_def.name with
  | none => Except.error "Tool must have a 'name' in its definition"
  | some n =>
    if n == "" then Except.error "Tool must have a 'name' in its definition"
    else Except.ok ⟨dictInsert mgr.tools n tool⟩

/-- `ToolManager.execute_tool` (lines 247-252): unknown names degrade to
a readable "not found" string; known names delegate to the tool. -/
def execute_tool (mgr : ToolManager) (tool_name : String) (kwargs : ToolArgs) : String :=
  match lookupTool mgr tool_name with
  | none => "Tool '" ++ tool_name ++ "' not found"
  | some t => t.run kwargs

/-- `ToolManager.reset_sources` (lines 262-266): clear `last_sources` on
every tool that has the attribute. -/
def reset_sources (mgr : ToolManager) : ToolManager :=
  ⟨mgr.tools.map (fun p =>
    (p.1, { p.2 with last_sources := p.2.last_sources.map (fun _ => []) }))⟩

/-- Whether a content block is a `tool_use` block
(`content_block.type == "tool_use"`). -/
def isToolUse : ContentBlock → Bool
  | ContentBlock.tool_use _ _ _ => true
  | _ => false

/-- A gateway response requesting one tool invocation. -/
def toolUseResp : MockResponse :=
  ⟨"tool_use", [ContentBlock.tool_use "search_course_content" [("query", "q")] "toolu_1"]⟩

/-- A plain-text gateway response. -/
def textResp : MockResponse :=
  ⟨"end_turn", [ContentBlock.text "final answer"]⟩

/-- A malformed gateway response: empty content list, so
`response.content[0]` raises `IndexError`. -/
def emptyResp : MockResponse :=
  ⟨"end_turn", []⟩

/-- A tool manager whose dispatch always succeeds. -/
def okTm : ExecFn := fun _ _ => some "tool output"

/-- A gateway stream that requests tools on the first two calls and then
answers in text. -/
def c1Client : Nat → MockResponse :=
  fun i => if i < 2 then toolUseResp else textResp

/-- A gateway stream that requests a tool once and then returns a
malformed (empty-content) response. -/
def c2Client : Nat → MockResponse :=
  fun i => if i = 0 then toolUseResp else emptyResp

/-- A gateway stream that always answers in plain text. -/
def c4Client : Nat → MockResponse :=
  fun _ => textResp

/-- A store whose search always reports an error. -/
def errStore : VectorStore :=
  ⟨fun _ _ _ => ⟨[], [], [], some "Search error"⟩, fun _ _ => none⟩

/-- A store whose search always returns an empty result set. -/
def emptyStore : VectorStore :=
  ⟨fun _ _ _ => ⟨[], [], [], none⟩, fun _ _ => none⟩

/-- A store whose search returns two chunks of lesson 1 of "Test Course",
with a lesson link available. -/
def demoStore : VectorStore :=
  ⟨fun _ _ _ =>
    ⟨["chunk one", "chunk two"],
     [⟨some "Test Course", some 1⟩, ⟨some "Test Course", some 1⟩],
     [0, 0], none⟩,
   fun _ _ => some "https://example.com/lesson1"⟩

/-- A tool with no declared name in its definition. -/
def noNameTool : PTool := ⟨⟨none⟩, fun _ => "x", none⟩

/-- A tool declaring the name `search_course_content`. -/
def namedTool : PTool := ⟨⟨some "search_course_content"⟩, fun _ => "y", none⟩

/-- A course metadata record used for the outline-matching scenario. -/
def mcpCourse : CourseMeta :=
  ⟨"MCP: Build Rich-Context AI Apps with Anthropic",
   some "Elie Schoppik", some "https://example.com/mcp",
   [⟨some 1, some "Intro"⟩]⟩

/-- C4: for every query whose first gateway response is plain text (no
tool invocation requested), the orchestrator makes exactly one gateway
call and returns that response's text unchanged. -/
theorem C4_single_call_plain_text (client : Nat → MockResponse) (hasTools : Bool)
    (tmo : Option ExecFn) (max_rounds : Nat) (query t : String)
    (h1 : (client 0).stop_reason ≠ "tool_use")
    (h2 : firstText (client 0).content = some t) :
    generate_response client hasTools tmo max_rounds query =
      ⟨RunResult.ok t, [hasTools]⟩ := by
  have hb : ((client 0).stop_reason == "tool_use") = false := by
    simpa using h1
  cases tmo with
  | none => simp [generate_response, finishText, h2]
  | some tm => simp [generate_response, hb, finishText, h2]

/-- C4 witness: a concrete plain-text run returns the text after one call. -/
theorem C4_witness :
    generate_response c4Client true none 2 "hello" =
      ⟨RunResult.ok "final answer", [true]⟩ :=
  C4_single_call_plain_text c4Client true none 2 "hello" "final answer"
    (by decide) (by decide)

/-- C2 (code-bug evidence): when the run reaches `maxRounds` and the final
tools-withdrawn gateway call returns a malformed response (empty content),
`final_response.content[0].text` at ai_generator.py line 150 is not
guarded by `try/except`, so the caller gets a raised exception instead of
the sentinel string. -/
theorem C2_exception_on_final_call :
    (generate_response c2Client true (some okTm) 1 "q").result = RunResult.exn := by
  decide

/-- C7: dispatching an unregistered tool name returns the literal
`Tool '<name>' not found` string without raising, and dispatching a
registered name returns that tool's execute result verbatim. -/
theorem C7_dispatch (mgr : ToolManager) (name : String) (args : ToolArgs) :
    (lookupTool mgr name = none →
      execute_tool mgr name args = "Tool '" ++ name ++ "' not found") ∧
    (∀ t : PTool, lookupTool mgr name = some t →
      execute_tool mgr name args = t.run args) := by
  constructor
  · intro h
    simp [execute_tool, h]
  · intro t h
    simp [execute_tool, h]

/-- C7 witness: dispatch to the unregistered name `bogus_tool`. -/
theorem C7_witness :
    execute_tool ⟨[]⟩ "bogus_tool" [] = "Tool 'bogus_tool' not found" :=
  (C7_dispatch ⟨[]⟩ "bogus_tool" []).1 rfl

/-- After `d[k] = v`, looking up `k` finds `v`. -/
theorem lookup_dictInsert (d : List (String × PTool)) (k : String) (v : PTool) :
    (dictInsert d k v).lookup k = some v := by
  induction d with
  | nil => simp [dictInsert, List.lookup]
  | cons p rest ih =>
    obtain ⟨k0, v0⟩ := p
    by_cases hk : k0 = k
    · subst hk
      simp [dictInsert, List.lookup]
    · have hb : (k0 == k) = false := by simpa using hk
      have hb2 : (k == k0) = false := by
        simp only [beq_eq_false_iff_ne]
        exact fun h => hk h.symm
      simp [dictInsert, hb, List.lookup, hb2, ih]

/-- C9: registering a tool whose definition lacks a truthy name (absent
or empty) fails with the configuration error, and registering a tool with
a declared non-empty name succeeds and keys the tool by that name. -/
theorem C9_register (mgr : ToolManager) (tool : PTool) :
    ((tool.tool_def.name = none ∨ tool.tool_def.name = some "") →
      register_tool mgr tool =
        Except.error "Tool must have a 'name' in its definition") ∧
    (∀ n : String, tool.tool_def.name = some n → n ≠ "" →
      register_tool mgr tool = Except.ok ⟨dictInsert mgr.tools n tool⟩ ∧
      lookupTool ⟨dictInsert mgr.tools n tool⟩ n = some tool) := by
  constructor
  · rintro (h | h) <;> simp [register_tool, h]
  · intro n hn hne
    have hb : (n == "") = false := by simpa using hne
    refine ⟨by simp [register_tool, hn, hb], ?_⟩
    simpa [lookupTool] using lookup_dictInsert mgr.tools n tool

/-- C9 witness: a nameless tool is rejected; a named tool is registered
and retrievable under its declared name. -/
theorem C9_witness :
    register_tool ⟨[]⟩ noNameTool =
      Except.error "Tool must have a 'name' in its definition" ∧
    lookupTool ⟨dictInsert ([] : List (String × PTool)) "search_course_content" namedTool⟩
        "search_course_content" = some namedTool :=
  ⟨(C9_register ⟨[]⟩ noNameTool).1 (Or.inl rfl),
   ((C9_register ⟨[]⟩ namedTool).2 "search_course_content" rfl (by decide)).2⟩

/-- One unfolding of the loop in its continuation case: the round's tool
results are appended and the loop recurses on the next response with one
round of budget spent. -/
theorem toolLoop_succ_step (client : Nat → MockResponse) (tm : ExecFn)
    (hasTools : Bool) (fuel ci : Nat) (msgs : List ChatMessage)
    (cur : MockResponse) (rs : List ToolResult)
    (hstop : cur.stop_reason = "tool_use")
    (hrs : execute_tools cur.content tm = some rs)
    (hf : fuel ≠ 0) :
    toolLoop client tm hasTools (fuel + 1) ci msgs cur =
      ⟨(toolLoop client tm hasTools fuel (ci + 1)
          ((msgs ++ [ChatMessage.assistantBlocks cur.content]) ++
            [ChatMessage.userToolResults rs]) (client ci)).result,
       hasTools :: (toolLoop client tm hasTools fuel (ci + 1)
          ((msgs ++ [ChatMessage.assistantBlocks cur.content]) ++
            [ChatMessage.userToolResults rs]) (client ci)).calls,
       (toolLoop client tm hasTools fuel (ci + 1)
          ((msgs ++ [ChatMessage.assistantBlocks cur.content]) ++
            [ChatMessage.userToolResults rs]) (client ci)).messages⟩ := by
  have hb : (cur.stop_reason == "tool_use") = true := by simp [hstop]
  simp [toolLoop, hb, hrs, hf]

/-- When the current response requests tools, the batch executes, and the
next `fuel - 1` gateway responses keep requesting (executable) tools, the
loop makes exactly `fuel` further gateway calls: all but the last with
tool schemas attached, the last without. -/
theorem toolLoop_calls_of_rounds (client : Nat → MockResponse) (tm : ExecFn)
    (hasTools : Bool) :
    ∀ (fuel ci : Nat) (msgs : List ChatMessage) (cur : MockResponse),
      cur.stop_reason = "tool_use" →
      execute_tools cur.content tm ≠ none →
      (∀ j : Nat, j + 1 < fuel + 1 →
        (client (ci + j)).stop_reason = "tool_use" ∧
        execute_tools (client (ci + j)).content tm ≠ none) →
      (toolLoop client tm hasTools (fuel + 1) ci msgs cur).calls =
        List.replicate fuel hasTools ++ [false] := by
  intro fuel
  induction fuel with
  | zero =>
    intro ci msgs cur hs he _
    obtain ⟨rs, hrs⟩ := Option.ne_none_iff_exists'.mp he
    have hb : (cur.stop_reason == "tool_use") = true := by simp [hs]
    simp [toolLoop, hb, hrs]
  | succ k ih =>
    intro ci msgs cur hs he hall
    obtain ⟨rs, hrs⟩ := Option.ne_none_iff_exists'.mp he
    have hb : (cur.stop_reason == "tool_use") = true := by simp [hs]
    have h0 := hall 0 (by omega)
    have hrest : ∀ j : Nat, j + 1 < k + 1 →
        (client (ci + 1 + j)).stop_reason = "tool_use" ∧
        execute_tools (client (ci + 1 + j)).content tm ≠ none := by
      intro j hj
      have := hall (j + 1) (by omega)
      simpa [Nat.add_assoc, Nat.add_comm 1 j] using this
    have hrec := ih (ci + 1)
      ((msgs ++ [ChatMessage.assistantBlocks cur.content]) ++
        [ChatMessage.userToolResults rs])
      (client ci) (by simpa using h0.1) (by simpa using h0.2) hrest
    rw [toolLoop_succ_step client tm hasTools (k + 1) ci msgs cur rs hs hrs
      (Nat.succ_ne_zero k)]
    simpa [List.replicate_succ] using congrArg (hasTools :: ·) hrec

/-- C1: for every run whose tool-use rounds reach the configured
`maxRounds` (tool manager present, tool schemas attached), the final
gateway call carries no tool schemas and the run makes exactly
`maxRounds + 1` gateway calls: one initial call and `maxRounds - 1`
continuation calls with tools, then one final call without tools. -/
theorem C1_max_rounds_call_pattern (client : Nat → MockResponse) (tm : ExecFn)
    (max_rounds : Nat) (query : String)
    (h1 : 1 ≤ max_rounds)
    (hall : ∀ i : Nat, i < max_rounds →
      (client i).stop_reason = "tool_use" ∧
      execute_tools (client i).content tm ≠ none) :
    (generate_response client true (some tm) max_rounds query).calls =
      List.replicate max_rounds true ++ [false] ∧
    (generate_response client true (some tm) max_rounds query).calls.length =
      max_rounds + 1 := by
  obtain ⟨m, rfl⟩ : ∃ m, max_rounds = m + 1 := ⟨max_rounds - 1, by omega⟩
  have h0 := hall 0 (by omega)
  have hb : ((client 0).stop_reason == "tool_use") = true := by simp [h0.1]
  have hshift : ∀ j : Nat, j + 1 < m + 1 →
      (client (1 + j)).stop_reason = "tool_use" ∧
      execute_tools (client (1 + j)).content tm ≠ none := by
    intro j hj
    have := hall (j + 1) (by omega)
    simpa [Nat.add_comm 1 j] using this
  have hloop := toolLoop_calls_of_rounds client tm true m 1
    [ChatMessage.userText query] (client 0) h0.1 h0.2 hshift
  have hmain : (generate_response client true (some tm) (m + 1) query).calls =
      List.replicate (m + 1) true ++ [false] := by
    simp only [generate_response, hb, if_true]
    simpa [List.replicate_succ] using congrArg (true :: ·) hloop
  exact ⟨hmain, by rw [hmain]; simp⟩

/-- C1 witness: a concrete run with `maxRounds = 2` makes three gateway
calls, the first two with tools and the last without. -/
theorem C1_witness :
    (generate_response c1Client true (some okTm) 2 "q").calls =
      List.replicate 2 true ++ [false] :=
  (C1_max_rounds_call_pattern c1Client okTm 2 "q" (by decide) (by decide)).1

/-- A batch with no `tool_use` blocks collects no results. -/
theorem executeToolsGo_all_text (tm : ExecFn) :
    ∀ content : List ContentBlock,
      (∀ b ∈ content, isToolUse b = false) →
      executeToolsGo tm content = some [] := by
  intro content h
  induction content with
  | nil => rfl
  | cons b rest ih =>
    cases b with
    | text s =>
      simp only [executeToolsGo]
      exact ih fun b hb => h b (List.mem_cons_of_mem _ hb)
    | tool_use n args id =>
      have := h (ContentBlock.tool_use n args id) (List.mem_cons_self _ _)
      simp [isToolUse] at this

/-- A raised tool execution anywhere in the batch aborts the whole batch. -/
theorem executeToolsGo_raise (tm : ExecFn) :
    ∀ (content : List ContentBlock) (n : String) (args : ToolArgs) (id : String),
      ContentBlock.tool_use n args id ∈ content → tm n args = none →
      executeToolsGo tm content = none := by
  intro content n args id hmem hraise
  induction content with
  | nil => simp at hmem
  | cons b rest ih =>
    rcases List.mem_cons.mp hmem with hb | hb
    · subst hb
      simp [executeToolsGo, hraise]
    · cases b with
      | text s => simpa [executeToolsGo] using ih hb
      | tool_use n2 args2 id2 =>
        simp only [executeToolsGo]
        cases h2 : tm n2 args2 with
        | none => rfl
        | some r => simp [ih hb]

/-- C10: a round whose batch of tool invocations yields no results —
because some tool execution raised (aborting the whole batch) or because
the response carried zero `tool_use` blocks — appends no tool-result
turn, makes no further gateway calls, and the run returns the last
response's text if available, else the sentinel string. -/
theorem C10_failed_batch (tm : ExecFn) :
    (∀ content : List ContentBlock,
        (∀ b ∈ content, isToolUse b = false) →
        execute_tools content tm = none) ∧
    (∀ (content : List ContentBlock) (n : String) (args : ToolArgs) (id : String),
        ContentBlock.tool_use n args id ∈ content → tm n args = none →
        execute_tools content tm = none) ∧
    (∀ (client : Nat → MockResponse) (hasTools : Bool) (fuel ci : Nat)
        (msgs : List ChatMessage) (cur : MockResponse),
        cur.stop_reason = "tool_use" →
        execute_tools cur.content tm = none →
        toolLoop client tm hasTools (fuel + 1) ci msgs cur =
          ⟨finishText cur, [],
           msgs ++ [ChatMessage.assistantBlocks cur.content]⟩) := by
  refine ⟨?_, ?_, ?_⟩
  · intro content h
    simp [execute_tools, executeToolsGo_all_text tm content h]
  · intro content n args id hmem hraise
    simp [execute_tools, executeToolsGo_raise tm content n args id hmem hraise]
  · intro client hasTools fuel ci msgs cur hs hnone
    have hb : (cur.stop_reason == "tool_use") = true := by simp [hs]
    simp [toolLoop, hb, hnone]

/-- C10 witness: a concrete tool-use response whose only invocation
raises leads the loop to stop with the sentinel (the tool-use response
has no text) after appending only the assistant turn. -/
theorem C10_witness :
    execute_tools toolUseResp.content (fun _ _ => none) = none ∧
    toolLoop c1Client (fun _ _ => none) true 2 1 [ChatMessage.userText "q"] toolUseResp =
      ⟨finishText toolUseResp, [],
       [ChatMessage.userText "q", ChatMessage.assistantBlocks toolUseResp.content]⟩ :=
  ⟨(C10_failed_batch (fun _ _ => none)).2.1 toolUseResp.content
      "search_course_content" [("query", "q")] "toolu_1" (by decide) rfl,
   (C10_failed_batch (fun _ _ => none)).2.2 c1Client true 1 1
      [ChatMessage.userText "q"] toolUseResp rfl
      ((C10_failed_batch (fun _ _ => none)).2.1 toolUseResp.content
        "search_course_content" [("query", "q")] "toolu_1" (by decide) rfl)⟩

/-- C3 counterexample: an execution whose search reports an error leaves
`last_sources` untouched — the stale entry survives even though the
execution matched zero documents, so provenance is *not* replaced on
every call. -/
theorem C3_counterexample :
    (errStore.search "q" none none).documents = [] ∧
    (cst_execute errStore ⟨["Old Course - Lesson 1"]⟩ "q" none none).2.last_sources =
      ["Old Course - Lesson 1"] := by
  decide

/-- C3 (amended): provenance is fully replaced — one entry per matched
document, independent of the prior value — on every *successful*
execution; executions returning a store error or an empty result set
leave `last_sources` unchanged; `reset_sources` clears provenance on all
source-tracking tools. -/
theorem C3_provenance (store : VectorStore) (tool : CourseSearchTool)
    (q : String) (cn : Option String) (ln : Option Int) :
    (optStrTruthy (store.search q cn ln).error = true →
      cst_execute store tool q cn ln = ((store.search q cn ln).error.getD "", tool)) ∧
    (optStrTruthy (store.search q cn ln).error = false →
      (store.search q cn ln).documents = [] →
      (cst_execute store tool q cn ln).2 = tool) ∧
    (optStrTruthy (store.search q cn ln).error = false →
      (store.search q cn ln).documents ≠ [] →
      (cst_execute store tool q cn ln).2.last_sources =
        ((store.search q cn ln).documents.zip (store.search q cn ln).metadata).map
          (fun p => sourceFor store p.2)) ∧
    (∀ (mgr : ToolManager), ∀ p ∈ (reset_sources mgr).tools,
      p.2.last_sources = none ∨ p.2.last_sources = some []) := by
  refine ⟨?_, ?_, ?_, ?_⟩
  · intro he
    simp [cst_execute, he]
  · intro he hd
    simp [cst_execute, he, SearchResults.is_empty, hd]
  · intro he hd
    have hne : (store.search q cn ln).documents.isEmpty = false := by
      cases hdoc : (store.search q cn ln).documents with
      | nil => exact absurd hdoc hd
      | cons a rest => simp [hdoc]
    simp [cst_execute, he, SearchResults.is_empty, hne, format_results]
  · intro mgr p hp
    simp only [reset_sources, List.mem_map] at hp
    obtain ⟨q0, _, rfl⟩ := hp
    cases q0.2.last_sources with
    | none => exact Or.inl rfl
    | some l => exact Or.inr (by simp)

/-- C3 witness: a successful two-chunk search fully replaces a stale
provenance list with the two entries derived from the matched documents. -/
theorem C3_witness :
    (cst_execute demoStore ⟨["stale"]⟩ "q" none none).2.last_sources =
      (((demoStore.search "q" none none).documents.zip
          (demoStore.search "q" none none).metadata).map
        (fun p => sourceFor demoStore p.2)) :=
  (C3_provenance demoStore ⟨["stale"]⟩ "q" none none).2.2.1 (by decide) (by decide)

/-- A list is a prefix of itself followed by anything. -/
theorem charPre_append_self (n post : List Char) :
    charPre n (n ++ post) = true := by
  induction n with
  | nil => rfl
  | cons c rest ih => simp [charPre, ih]

/-- A substring occurs in any surrounding context. -/
theorem charSub_middle (pre n post : List Char) :
    charSub n (pre ++ (n ++ post)) = true := by
  induction pre with
  | nil =>
    cases h : n ++ post with
    | nil => simp [charSub, charPre, List.append_eq_nil.mp h]
    | cons c rest => simp [charSub, ← h, charPre_append_self]
  | cons c rest ih => simp [charSub, ih]

/-- Python's `sub in s` holds whenever `s` is `pre ++ sub ++ post`. -/
theorem strIn_middle (pre sub post : String) :
    strIn sub (pre ++ (sub ++ post)) = true := by
  simpa [strIn] using charSub_middle pre.data sub.data post.data

/-- C6 counterexample: with `lessonNumber = 0` supplied (a falsy value in
Python), the empty-result message mentions neither the lesson filter nor
its value, refuting "whenever a lesson number is supplied the message
mentions it". -/
theorem C6_counterexample :
    (cst_execute emptyStore ⟨[]⟩ "q" none (some 0)).1 =
      "No relevant content found." ∧
    strIn "lesson" (cst_execute emptyStore ⟨[]⟩ "q" none (some 0)).1 = false ∧
    strIn "0" (cst_execute emptyStore ⟨[]⟩ "q" none (some 0)).1 = false := by
  decide

/-- C6 (amended): an error-free empty-result execution returns a message
naming every *truthy* filter — a non-empty supplied course name is
mentioned, a non-zero supplied lesson number is mentioned — and with
`courseName = "Nonexistent"` and `lessonNumber = 5` the message is
exactly the specified string. -/
theorem C6_empty_result_message (store : VectorStore) (tool : CourseSearchTool)
    (q : String) (cn : Option String) (ln : Option Int)
    (he : optStrTruthy (store.search q cn ln).error = false)
    (hd : (store.search q cn ln).documents = []) :
    (∀ c : String, cn = some c → c ≠ "" →
      strIn (" in course '" ++ c ++ "'") (cst_execute store tool q cn ln).1 = true) ∧
    (∀ n : Int, ln = some n → n ≠ 0 →
      strIn (" in lesson " ++ toString n) (cst_execute store tool q cn ln).1 = true) ∧
    (cn = some "Nonexistent" → ln = some 5 →
      (cst_execute store tool q cn ln).1 =
        "No relevant content found in course 'Nonexistent' in lesson 5.") := by
  have hout : (cst_execute store tool q cn ln).1 =
      "No relevant content found" ++ filterInfo cn ln ++ "." := by
    simp [cst_execute, he, SearchResults.is_empty, hd]
  refine ⟨?_, ?_, ?_⟩
  · intro c hc hne
    subst hc
    have hb : (c == "") = false := by simpa using hne
    rw [hout]
    cases ln with
    | none =>
      have := strIn_middle "No relevant content found"
        (" in course '" ++ c ++ "'") "."
      simpa [filterInfo, hb, String.append_assoc] using this
    | some n =>
      by_cases hn0 : n = 0
      · subst hn0
        have := strIn_middle "No relevant content found"
          (" in course '" ++ c ++ "'") "."
        simpa [filterInfo, hb, String.append_assoc] using this
      · have hb2 : (n == 0) = false := by simpa using hn0
        have := strIn_middle "No relevant content found"
          (" in course '" ++ c ++ "'") (" in lesson " ++ toString n ++ ".")
        simpa [filterInfo, hb, hb2, String.append_assoc] using this
  · intro n hn hne
    subst hn
    have hb : (n == 0) = false := by simpa using hne
    rw [hout]
    cases cn with
    | none =>
      have := strIn_middle "No relevant content found"
        (" in lesson " ++ toString n) "."
      simpa [filterInfo, hb, String.append_assoc] using this
    | some c =>
      by_cases hc0 : c = ""
      · subst hc0
        have := strIn_middle "No relevant content found"
          (" in lesson " ++ toString n) "."
        simpa [filterInfo, hb, String.append_assoc] using this
      · have hb2 : (c == "") = false := by simpa using hc0
        have := strIn_middle
          ("No relevant content found" ++ (" in course '" ++ c ++ "'"))
          (" in lesson " ++ toString n) "."
        simpa [filterInfo, hb, hb2, String.append_assoc] using this
  · intro hc hn
    subst hc; subst hn
    rw [hout]
    rfl

/-- C6 witness: the exact scenario string for an empty result with
`courseName = "Nonexistent"` and `lessonNumber = 5`. -/
theorem C6_witness :
    (cst_execute emptyStore ⟨[]⟩ "query" (some "Nonexistent") (some 5)).1 =
      "No relevant content found in course 'Nonexistent' in lesson 5." :=
  (C6_empty_result_message emptyStore ⟨[]⟩ "query" (some "Nonexistent") (some 5)
    (by decide) (by decide)).2.2 rfl rfl

/-- The lesson-rendering fold of `_format_course_outline` appends exactly
one formatted line per included lesson, in list order. -/
theorem foldl_lessonStep (ls : List LessonMeta) (init : String) :
    ls.foldl (fun acc l =>
      match l.lesson_number, l.lesson_title with
      | some n, some t =>
        if t == "" then acc else acc ++ toString n ++ ". " ++ t ++ "\n"
      | _, _ => acc) init =
    init ++ concatAll ((ls.filter includedLesson).map lessonLine) := by
  induction ls generalizing init with
  | nil => simp [concatAll]
  | cons l rest ih =>
    rw [List.foldl_cons, ih]
    cases hn : l.lesson_number with
    | none =>
      have hincl : includedLesson l = false := by simp [includedLesson, hn]
      simp [hn, hincl]
    | some n =>
      cases ht : l.lesson_title with
      | none =>
        have hincl : includedLesson l = false := by simp [includedLesson, ht]
        simp [hn, ht, hincl]
      | some t =>
        by_cases h0 : t = ""
        · subst h0
          have hincl : includedLesson l = false := by simp [includedLesson, ht]
          simp [hn, ht, hincl]
        · have hb : (t == "") = false := by simpa using h0
          have hincl : includedLesson l = true := by
            simp [includedLesson, hn, ht, hb]
          simp [hn, ht, hb, hincl, lessonLine, concatAll, String.append_assoc]

/-- Membership after insertion: the inserted lesson or an original one. -/
theorem mem_insertLesson (a y : LessonMeta) :
    ∀ ls : List LessonMeta, y ∈ insertLesson a ls → y = a ∨ y ∈ ls := by
  intro ls
  induction ls with
  | nil =>
    intro h
    simp [insertLesson] at h
    exact Or.inl h
  | cons x xs ih =>
    by_cases hle : lessonKey a ≤ lessonKey x
    · intro h
      have heq : insertLesson a (x :: xs) = a :: x :: xs := by
        simp [insertLesson, hle]
      rw [heq] at h
      rcases List.mem_cons.mp h with h1 | h1
      · exact Or.inl h1
      · exact Or.inr h1
    · intro h
      have heq : insertLesson a (x :: xs) = x :: insertLesson a xs := by
        simp [insertLesson, hle]
      rw [heq] at h
      rcases List.mem_cons.mp h with h1 | h1
      · exact Or.inr (by simp [h1])
      · rcases ih h1 with h2 | h2
        · exact Or.inl h2
        · exact Or.inr (List.mem_cons_of_mem _ h2)

/-- Inserting into a key-sorted list keeps it key-sorted. -/
theorem pairwise_insertLesson (a : LessonMeta) :
    ∀ ls : List LessonMeta,
      ls.Pairwise (fun x y => lessonKey x ≤ lessonKey y) →
      (insertLesson a ls).Pairwise (fun x y => lessonKey x ≤ lessonKey y) := by
  intro ls
  induction ls with
  | nil => simp [insertLesson]
  | cons x xs ih =>
    intro h
    rcases List.pairwise_cons.mp h with ⟨hx, hxs⟩
    by_cases hle : lessonKey a ≤ lessonKey x
    · have hall : ∀ y ∈ x :: xs, lessonKey a ≤ lessonKey y := by
        intro y hy
        rcases List.mem_cons.mp hy with h1 | h1
        · simpa [h1] using hle
        · exact le_trans hle (hx y h1)
      have heq : insertLesson a (x :: xs) = a :: x :: xs := by
        simp [insertLesson, hle]
      rw [heq]
      exact List.Pairwise.cons hall h
    · have hxa : lessonKey x ≤ lessonKey a := le_of_not_le hle
      have hall : ∀ y ∈ insertLesson a xs, lessonKey x ≤ lessonKey y := by
        intro y hy
        rcases mem_insertLesson a y xs hy with h1 | h1
        · simpa [h1] using hxa
        · exact hx y h1
      have heq : insertLesson a (x :: xs) = x :: insertLesson a xs := by
        simp [insertLesson, hle]
      rw [heq]
      exact List.Pairwise.cons hall (ih hxs)

/-- The sorted lesson list is pairwise ordered by ascending lesson number
(missing numbers counting as 0). -/
theorem sortLessons_pairwise (ls : List LessonMeta) :
    (sortLessons ls).Pairwise
      (fun a b => a.lesson_number.getD 0 ≤ b.lesson_number.getD 0) := by
  have key : (sortLessons ls).Pairwise (fun x y => lessonKey x ≤ lessonKey y) := by
    induction ls with
    | nil => simp [sortLessons]
    | cons a rest ih => exact pairwise_insertLesson a (sortLessons rest) ih
  exact key.imp (fun h => h)

/-- C5 (amended): a matched course with an empty lesson list renders the
explicit "No lessons found" line; otherwise the outline is the header
followed by one `<number>. <title>` line per rendered lesson, taken in
ascending lesson-number order; and a lesson is rendered iff it has a
lesson number and a non-empty title (so it is skipped when it lacks a
number *or* lacks a title, not only when it lacks both). -/
theorem C5_outline_lessons (c : CourseMeta) :
    (c.lessons = [] →
      format_course_outline c =
        courseHeader c ++ "No lessons found for this course.\n") ∧
    (c.lessons ≠ [] →
      format_course_outline c =
        courseHeader c ++
          concatAll (((sortLessons c.lessons).filter includedLesson).map lessonLine)) ∧
    (sortLessons c.lessons).Pairwise
      (fun a b => a.lesson_number.getD 0 ≤ b.lesson_number.getD 0) ∧
    (∀ l : LessonMeta, includedLesson l = true ↔
      (l.lesson_number ≠ none ∧ ∃ t, l.lesson_title = some t ∧ t ≠ "")) := by
  refine ⟨?_, ?_, sortLessons_pairwise c.lessons, ?_⟩
  · intro h
    simp [format_course_outline, courseHeader, h]
  · intro h
    have hne : c.lessons.isEmpty = false := by
      cases hl : c.lessons with
      | nil => exact absurd hl h
      | cons a rest => simp [hl]
    simp only [format_course_outline, hne, Bool.false_eq_true, if_false]
    rw [foldl_lessonStep]
    rfl
  · intro l
    obtain ⟨n?, t?⟩ := l
    cases n? <;> cases t? <;> simp [includedLesson]

/-- C5 counterexample: a lesson that has a number but no title is skipped
silently, refuting "skipped only when it lacks both a number and a
title".  The rendered outline contains no lesson line at all. -/
theorem C5_counterexample :
    (LessonMeta.mk (some 1) none).lesson_number ≠ none ∧
    format_course_outline ⟨"T", none, none, [⟨some 1, none⟩]⟩ =
      "**T**\n\n\n**Course Lessons:**\n" := by
  constructor
  · decide
  · rfl

/-- C5 witness: a course with an empty lesson list renders the explicit
"No lessons found" line. -/
theorem C5_witness :
    format_course_outline ⟨"Course X", none, none, []⟩ =
      courseHeader ⟨"Course X", none, none, []⟩ ++
        "No lessons found for this course.\n" :=
  (C5_outline_lessons ⟨"Course X", none, none, []⟩).1 rfl

/-- `find?` returns the element at the first index satisfying the
predicate. -/
theorem find?_eq_of_first {α : Type} (p : α → Bool) :
    ∀ (l : List α) (i : Nat) (h : i < l.length),
      p (l.get ⟨i, h⟩) = true →
      (∀ (j : Nat) (hj : j < i), p (l.get ⟨j, Nat.lt_trans hj h⟩) = false) →
      l.find? p = some (l.get ⟨i, h⟩) := by
  intro l
  induction l with
  | nil =>
    intro i h
    exact absurd h (Nat.not_lt_zero i)
  | cons a rest ih =>
    intro i h hp hfirst
    cases i with
    | zero => simp_all [List.find?]
    | succ i0 =>
      have ha : p a = false := by
        simpa using hfirst 0 (Nat.succ_pos i0)
      have hrest := ih i0 (Nat.lt_of_succ_lt_succ h) (by simpa using hp)
        (fun j hj => by simpa using hfirst (j + 1) (Nat.succ_lt_succ hj))
      simp [List.find?, ha, hrest]

/-- C8: the outline tool's match policy — the first case-insensitive
exact title match wins; only when no exact match exists does the first
(in iteration order) case-insensitive bidirectional substring match win;
when neither pass matches, no course is returned and the tool's response
names the searched title and enumerates every available course title. -/
theorem C8_match_policy (s : String) (cs : List CourseMeta) :
    (∀ (i : Nat) (h : i < cs.length),
      exactPred s (cs.get ⟨i, h⟩) = true →
      (∀ (j : Nat) (hj : j < i), exactPred s (cs.get ⟨j, Nat.lt_trans hj h⟩) = false) →
      find_best_course_match s cs = some (cs.get ⟨i, h⟩)) ∧
    ((∀ c ∈ cs, exactPred s c = false) →
      ∀ (i : Nat) (h : i < cs.length),
      partialPred s (cs.get ⟨i, h⟩) = true →
      (∀ (j : Nat) (hj : j < i), partialPred s (cs.get ⟨j, Nat.lt_trans hj h⟩) = false) →
      find_best_course_match s cs = some (cs.get ⟨i, h⟩)) ∧
    ((∀ c ∈ cs, exactPred s c = false ∧ partialPred s c = false) →
      find_best_course_match s cs = none) ∧
    (cs ≠ [] → find_best_course_match s cs = none →
      outline_execute cs s =
        "No course found matching '" ++ s ++ "'. Available courses: " ++
          String.intercalate ", " (cs.map CourseMeta.title)) := by
  refine ⟨?_, ?_, ?_, ?_⟩
  · intro i h hp hfirst
    rw [find_best_course_match, find?_eq_of_first (exactPred s) cs i h hp hfirst]
  · intro hnoexact i h hp hfirst
    have hnone : cs.find? (exactPred s) = none :=
      List.find?_eq_none.mpr (fun c hc => by simp [hnoexact c hc])
    rw [find_best_course_match, hnone]
    exact find?_eq_of_first (partialPred s) cs i h hp hfirst
  · intro hnomatch
    have h1 : cs.find? (exactPred s) = none :=
      List.find?_eq_none.mpr (fun c hc => by simp [(hnomatch c hc).1])
    have h2 : cs.find? (partialPred s) = none :=
      List.find?_eq_none.mpr (fun c hc => by simp [(hnomatch c hc).2])
    rw [find_best_course_match, h1, h2]
  · intro hne hnone
    have hempty : cs.isEmpty = false := by
      cases hl : cs with
      | nil => exact absurd hl hne
      | cons a rest => simp [hl]
    simp [outline_execute, hempty, hnone]

/-- C8 witness: the partial-match scenario (searching "MCP" finds the
full course title) and the no-match message enumerating the available
titles. -/
theorem C8_witness :
    find_best_course_match "MCP" [mcpCourse] =
      some ([mcpCourse].get ⟨0, Nat.succ_pos 0⟩) ∧
    outline_execute [mcpCourse] "Quantum Basketweaving" =
      "No course found matching 'Quantum Basketweaving'. Available courses: " ++
        String.intercalate ", " ([mcpCourse].map CourseMeta.title) :=
  ⟨(C8_match_policy "MCP" [mcpCourse]).2.1 (by decide) 0 (Nat.succ_pos 0)
      (by decide) (fun j hj => absurd hj (Nat.not_lt_zero j)),
   (C8_match_policy "Quantum Basketweaving" [mcpCourse]).2.2.2 (by decide)
      ((C8_match_policy "Quantum Basketweaving" [mcpCourse]).2.2.1 (by decide))⟩

end RagChatbot
